import Mathlib

/-!
Shallow embedding of the authorization and session-consistency core of the
CommunityHub repository (Express + Firebase backend, React client).

Definitions are translated from the TypeScript source:
* `verifyAuth`, `verifyAdmin` from `backend/src/middleware/auth.ts`;
* `authenticateUser`, `requireAdmin` from the second auth-middleware variant;
* `successResponse`, `errorResponse` from `backend/src/utils/response-handler.ts`;
* `rsvpToEvent`, `cancelRsvp`, `updateResident` from
  `backend/src/controllers/{event,resident}Controller.ts`;
* `fetchBackendUserData` from the client `AuthContext` provider.

JavaScript objects sent as JSON bodies are modelled by the `Json` inductive,
so that presence or absence of a key (e.g. `timestamp`) is observable.
`process.env.NODE_ENV` is an `Option String` (it may be unset), and the
Firebase verification call is an explicit function argument
`String → Option DecodedToken` (`none` models any provider-side failure:
expired, malformed or revoked token).
-/

namespace CommunityHub

/-- JSON values, enough to state which keys a response body carries. -/
inductive Json where
  | null : Json
  | bool (b : Bool) : Json
  | str (s : String) : Json
  | num (n : Int) : Json
  | arr (elems : List Json) : Json
  | obj (fields : List (String × Json)) : Json

/-- Look a key up in a JSON object (first occurrence); `none` when the key is
absent or the value is not an object. -/
def Json.lookup : Json → String → Option Json
  | .obj fields, k => (fields.find? (fun p => p.1 == k)).map Prod.snd
  | _, _ => none

/-- The decoded Firebase ID token: `uid`, optional `email`, and the optional
custom `role` claim embedded in the token. -/
structure DecodedToken where
  uid : String
  email : Option String
  role : Option String

/-- The `req.user` object the middleware attaches to the request
(`{ uid, email?, role? }`). -/
structure AuthUser where
  uid : String
  email : Option String
  role : Option String

/-- Outcome of an authentication middleware: either continue to the handler
with `req.user` attached, or send a response and stop. -/
inductive MWResult where
  | next (user : AuthUser) : MWResult
  | respond (status : Nat) (body : Json) : MWResult

/-- Outcome of a gate middleware (`verifyAdmin` / `requireAdmin`): continue,
or send a response and stop. -/
inductive GateResult where
  | next : GateResult
  | respond (status : Nat) (body : Json) : GateResult

/-- Body sent by `verifyAuth` / `authenticateUser` on a missing or malformed
`Authorization` header: `{ success: false, message: 'Access denied. No token provided.' }`. -/
def noTokenBody : Json :=
  .obj [("success", .bool false), ("message", .str "Access denied. No token provided.")]

/-- Body sent by `verifyAuth` when Firebase rejects the token:
`{ success: false, message: 'Invalid token.' }`. -/
def invalidTokenBody : Json :=
  .obj [("success", .bool false), ("message", .str "Invalid token.")]

/-- Body sent by `verifyAdmin` when `req.user` is missing. -/
def authRequiredBody : Json :=
  .obj [("success", .bool false), ("message", .str "Access denied. Authentication required.")]

/-- Body sent by `verifyAdmin` when the role is not `admin`. -/
def adminRequiredBody : Json :=
  .obj [("success", .bool false), ("message", .str "Access denied. Admin privileges required.")]

/-- Body sent by `authenticateUser` when Firebase rejects the token:
`{ success: false, message: 'Invalid or expired token' }`. -/
def invalidOrExpiredBody : Json :=
  .obj [("success", .bool false), ("message", .str "Invalid or expired token")]

/-- Body sent by `requireAdmin` when `req.user` is missing. -/
def authRequiredBody2 : Json :=
  .obj [("success", .bool false), ("message", .str "Authentication required")]

/-- Body sent by `requireAdmin` when the role is neither `admin` nor `super_admin`. -/
def adminRequiredBody2 : Json :=
  .obj [("success", .bool false), ("message", .str "Admin privileges required")]

/-- The mock identity the development bypass attaches:
`{ uid: 'dev-user-123', email: 'dev@example.com', role: 'admin' }`. -/
def mockUser : AuthUser :=
  ⟨"dev-user-123", some "dev@example.com", some "admin"⟩

/-- JavaScript `String.prototype.startsWith`, implemented on the character
list so that the kernel can evaluate it on literals (Lean's own
`String.startsWith` goes through byte positions and does not reduce). -/
def jsStartsWith (s p : String) : Bool :=
  p.data.isPrefixOf s.data

/-- JavaScript `String.prototype.split(' ')` on the character list: splits at
every space, keeping empty pieces, as JS does. -/
def splitOnSpace : List Char → List (List Char)
  | [] => [[]]
  | ch :: rest =>
    match splitOnSpace rest with
    | [] => [[]]
    | cur :: parts =>
      if ch = ' ' then [] :: cur :: parts else (ch :: cur) :: parts

/-- `authHeader.split(' ')[1]`: the token extracted from the header (the
empty string when there is no second piece, as JS yields `undefined` only
past a `Bearer ` prefix check that guarantees a second piece exists). -/
def extractToken (s : String) : String :=
  String.mk ((splitOnSpace s.data).getD 1 [])

/-- `verifyAuth` from `backend/src/middleware/auth.ts` (the variant mounted on
the routes). `env` is `process.env.NODE_ENV`; `verifyIdToken` is Firebase's
verification call, `none` for any provider-side failure. Note: the attached
role is `decodedToken.role || 'user'` — a claim read from the token itself;
the middleware never consults the `users` collection. -/
def verifyAuth (env : Option String) (authHeader : Option String)
    (verifyIdToken : String → Option DecodedToken) : MWResult :=
  match authHeader with
  | none => .respond 401 noTokenBody
  | some h =>
    if jsStartsWith h "Bearer " then
      let token := extractToken h
      if env = some "development" ∧ jsStartsWith token "simulated_token_" then
        .next mockUser
      else
        match verifyIdToken token with
        | some d => .next ⟨d.uid, d.email, some (d.role.getD "user")⟩
        | none => .respond 403 invalidTokenBody
    else .respond 401 noTokenBody

/-- `verifyAdmin` from `backend/src/middleware/auth.ts`: 401 when `req.user`
is missing, 403 when `req.user.role !== 'admin'`, otherwise `next()`. -/
def verifyAdmin (user : Option AuthUser) : GateResult :=
  match user with
  | none => .respond 401 authRequiredBody
  | some u =>
    if u.role = some "admin" then .next
    else .respond 403 adminRequiredBody

/-- `authenticateUser`, the second middleware variant: no development bypass,
default role claim `'resident'`, 403 on provider failure. -/
def authenticateUser (authHeader : Option String)
    (verifyIdToken : String → Option DecodedToken) : MWResult :=
  match authHeader with
  | none => .respond 401 noTokenBody
  | some h =>
    if jsStartsWith h "Bearer " then
      match verifyIdToken (extractToken h) with
      | some d => .next ⟨d.uid, d.email, some (d.role.getD "resident")⟩
      | none => .respond 403 invalidOrExpiredBody
    else .respond 401 noTokenBody

/-- `requireAdmin`, the second gate variant: admits `admin` and `super_admin`. -/
def requireAdmin (user : Option AuthUser) : GateResult :=
  match user with
  | none => .respond 401 authRequiredBody2
  | some u =>
    if u.role = some "admin" ∨ u.role = some "super_admin" then .next
    else .respond 403 adminRequiredBody2

/-- An HTTP response: status code and JSON body. -/
structure ApiResponse where
  status : Nat
  body : Json

/-- `successResponse` from `backend/src/utils/response-handler.ts`:
`{ success: true, message, data, timestamp }`. `now` stands for
`new Date().toISOString()`. -/
def successResponse (statusCode : Nat) (message : String) (data : Json)
    (now : String) : ApiResponse :=
  ⟨statusCode, .obj [("success", .bool true), ("message", .str message),
    ("data", data), ("timestamp", .str now)]⟩

/-- `errorResponse` from `backend/src/utils/response-handler.ts`:
`{ success: false, message, error, timestamp }`. -/
def errorResponse (statusCode : Nat) (message : String) (error : Json)
    (now : String) : ApiResponse :=
  ⟨statusCode, .obj [("success", .bool false), ("message", .str message),
    ("error", error), ("timestamp", .str now)]⟩

/-- The event document (`events` collection), fields of the `Event`
interface in `eventController.ts`. `maxAttendees` is an optional number
(`null` models the JS `null`/absent cap); `attendees` is the stored array of
user ids. -/
structure Event where
  title : String
  description : String
  date : String
  endDate : Option String
  location : String
  maxAttendees : Option Int
  image : Option String
  isPublic : Bool
  attendees : List String
  createdBy : String
  createdAt : String
  updatedAt : String

/-- The capacity guard of `rsvpToEvent`:
`eventData?.maxAttendees && attendees.length >= eventData.maxAttendees`.
JavaScript truthiness makes a cap of `0` (or `null`) no cap at all. -/
def atCapacity (maxAttendees : Option Int) (attendees : List String) : Bool :=
  match maxAttendees with
  | none => false
  | some m => m ≠ 0 ∧ (attendees.length : Int) ≥ m

/-- `rsvpToEvent` from `eventController.ts`, as a pure function from the
looked-up event document (`none` = document absent) to the HTTP response and
the resulting document. Order of checks as in the source: 404 if absent,
400 on duplicate RSVP, 400 at capacity, else append the user id. -/
def rsvpToEvent (event : Option Event) (userId : String) (now : String) :
    ApiResponse × Option Event :=
  match event with
  | none => (errorResponse 404 "Event not found" .null now, none)
  | some e =>
    if userId ∈ e.attendees then
      (errorResponse 400 "You have already RSVP'd to this event" .null now, some e)
    else if atCapacity e.maxAttendees e.attendees then
      (errorResponse 400 "Event has reached maximum attendees" .null now, some e)
    else
      (successResponse 200 "RSVP successful" .null now,
        some { e with attendees := e.attendees ++ [userId], updatedAt := now })

/-- `cancelRsvp` from `eventController.ts`: 404 if absent, 400 when the user
has not RSVP'd, else `attendees.filter(id => id !== userId)`. -/
def cancelRsvp (event : Option Event) (userId : String) (now : String) :
    ApiResponse × Option Event :=
  match event with
  | none => (errorResponse 404 "Event not found" .null now, none)
  | some e =>
    if userId ∈ e.attendees then
      (successResponse 200 "RSVP canceled successfully" .null now,
        some { e with
          attendees := e.attendees.filter (fun id => id ≠ userId)
          updatedAt := now })
    else
      (errorResponse 400 "You have not RSVP'd to this event" .null now, some e)

/-- A document of the `users` collection (the Application User Record):
fields written by `registerUser` / `createResident` / `updateResident`. -/
structure UserRecord where
  email : String
  displayName : String
  phoneNumber : String
  flatNumber : String
  blockNumber : String
  role : String
  createdAt : String
  updatedAt : String

/-- JavaScript truthiness of an optional string: `undefined`, `null` and the
empty string are falsy. -/
def truthy : Option String → Bool
  | none => false
  | some s => s ≠ ""

/-- The JSON body of a `PUT /api/residents/:id` request, as `updateResident`
destructures it: `{ name, phoneNumber, flatNumber, blockNumber }`. A `role`
key may also be present in the request body; the source never reads it. -/
structure ResidentUpdateBody where
  name : Option String
  phoneNumber : Option String
  flatNumber : Option String
  blockNumber : Option String
  role : Option String

/-- The `updateData` merge of `updateResident`: `updatedAt` always, truthy
`name`/`phoneNumber` for everyone, truthy `flatNumber`/`blockNumber` only
when the requester is admin (`isAdmin` is `req.user.role === 'admin'`). -/
def applyResidentUpdate (isAdmin : Bool) (body : ResidentUpdateBody)
    (r : UserRecord) (now : String) : UserRecord :=
  let r1 := { r with updatedAt := now }
  let r2 := if truthy body.name
    then { r1 with displayName := body.name.getD "" } else r1
  let r3 := if truthy body.phoneNumber
    then { r2 with phoneNumber := body.phoneNumber.getD "" } else r2
  if isAdmin then
    let a := if truthy body.flatNumber
      then { r3 with flatNumber := body.flatNumber.getD "" } else r3
    if truthy body.blockNumber
      then { a with blockNumber := body.blockNumber.getD "" } else a
  else r3

/-- `updateResident` from `residentController.ts`, as a pure function from
the requester (`req.user`), the target id, the request body and the stored
record (`none` = document absent). The authorization check
(`req.user.role !== 'admin' && req.user.uid !== residentId`) runs before the
existence check; only truthy `name`/`phoneNumber` are applied, and
`flatNumber`/`blockNumber` only when the requester's role is `admin`. -/
def updateResident (requester : AuthUser) (residentId : String)
    (body : ResidentUpdateBody) (record : Option UserRecord) (now : String) :
    ApiResponse × Option UserRecord :=
  if requester.role ≠ some "admin" ∧ requester.uid ≠ residentId then
    (errorResponse 403 "Not authorized to update this resident profile" .null now,
      record)
  else
    match record with
    | none => (errorResponse 404 "Resident not found" .null now, none)
    | some r =>
      (successResponse 200 "Resident updated successfully" .null now,
        some (applyResidentUpdate (decide (requester.role = some "admin"))
          body r now))

/-- The Firebase client user the bridge receives on a session change. -/
structure FbUser where
  uid : String
  email : Option String
  displayName : Option String
  phoneNumber : Option String
  photoURL : Option String

/-- The `User` shape the client `AuthContext` exposes as `currentUser`. -/
structure ClientUser where
  id : String
  name : String
  email : String
  phoneNumber : Option String
  role : String
  photoURL : Option String

/-- The `data` of a successful `GET /api/auth/me`, restricted to the fields
the merge can touch (`none` = key absent or null in the payload). -/
structure MeData where
  role : Option String
  displayName : Option String
  phoneNumber : Option String

/-- The provisional `currentUser` that `fetchBackendUserData` sets from the
Firebase user alone, before the `/auth/me` call: note the hard-coded
`role: 'resident' // Default role`. -/
def initialClientUser (u : FbUser) : ClientUser :=
  { id := u.uid
    email := u.email.getD ""
    name := u.displayName.getD ""
    photoURL := u.photoURL
    phoneNumber := u.phoneNumber
    role := "resident" }

/-- The merge `setCurrentUser(prev => ({...prev, role: userData.role || 'resident',
...userData}))`: backend fields overwrite the provisional ones; the role
becomes the backend record's role, defaulting to `resident`. -/
def mergeClientUser (prev : ClientUser) (m : MeData) : ClientUser :=
  { prev with
    role := m.role.getD "resident"
    name := m.displayName.getD prev.name
    phoneNumber := (m.phoneNumber.map some).getD prev.phoneNumber }

/-- `fetchBackendUserData` from the client `AuthContext`, as the sequence of
`currentUser` values it exposes to the UI, in order. `tokenOk` is whether
`getIdToken` succeeded; `me` is the `/auth/me` result (`none` = the call
failed or did not succeed). On token failure the provider logs the user out
(`currentUser` becomes `null`); on success the provisional user (default
role `resident`) is exposed first, then, if `/auth/me` succeeds, the merged
user. -/
def fetchBackendUserData (u : FbUser) (tokenOk : Bool) (me : Option MeData) :
    List (Option ClientUser) :=
  if tokenOk then
    match me with
    | some m => [some (initialClientUser u), some (mergeClientUser (initialClientUser u) m)]
    | none => [some (initialClientUser u)]
  else [none]

/-- Modelled from the spec: the role-resolution algorithm of §4.2, which the
repository's middleware does not implement — look the Application User Record
up in the `users` collection by identity id; if absent, create a default
record with role `resident`; return the record's role field. -/
def resolveRoleSpec (users : String → Option UserRecord) (uid : String) : String :=
  match users uid with
  | some r => r.role
  | none => "resident"

/-! ## Theorems about the claims -/

/-- C8: whenever `NODE_ENV` is not `'development'` (including unset), the
magic-prefix bypass in `verifyAuth` is unreachable — every token extracted
from a well-formed `Authorization` header, simulated-prefixed or not, is
submitted to the provider's `verifyIdToken` and the outcome is exactly the
provider path's, for every possible provider behaviour; the mock identity is
never granted by the bypass. -/
theorem c8_bypass_unreachable (env : Option String) (s : String)
    (verify : String → Option DecodedToken)
    (henv : env ≠ some "development")
    (hs : jsStartsWith s "Bearer " = true) :
    verifyAuth env (some s) verify =
      (match verify (extractToken s) with
       | some d => MWResult.next ⟨d.uid, d.email, some (d.role.getD "user")⟩
       | none => MWResult.respond 403 invalidTokenBody) := by
  simp only [verifyAuth, hs, if_true]
  rw [if_neg]
  intro hc
  exact henv hc.1

/-- Witness for C8: in production mode a simulated-prefix token is rejected
with 403 when the provider rejects it, instead of being granted the mock
identity. -/
theorem c8_bypass_unreachable_witness :
    verifyAuth (some "production") (some "Bearer simulated_token_abc")
      (fun _ => none) = MWResult.respond 403 invalidTokenBody := by
  rw [c8_bypass_unreachable (some "production") "Bearer simulated_token_abc"
    (fun _ => none) (by decide) (by decide)]

/-- C10: in development mode, any request whose extracted bearer token starts
with `simulated_token_` is authenticated as the fixed mock identity
(uid `dev-user-123`, email `dev@example.com`, role `admin`) for every
possible provider behaviour (the provider is never consulted; `verifyAuth`
takes no database argument at all), and that identity passes both admin
gates. -/
theorem c10_dev_bypass (s : String) (verify : String → Option DecodedToken)
    (hs : jsStartsWith s "Bearer " = true)
    (ht : jsStartsWith (extractToken s) "simulated_token_" = true) :
    verifyAuth (some "development") (some s) verify = MWResult.next mockUser
    ∧ verifyAdmin (some mockUser) = GateResult.next
    ∧ requireAdmin (some mockUser) = GateResult.next := by
  refine ⟨?_, rfl, rfl⟩
  simp [verifyAuth, hs, ht]

/-- Witness for C10: a concrete simulated token is granted the mock admin
identity even when the provider would reject every token. -/
theorem c10_dev_bypass_witness :
    verifyAuth (some "development") (some "Bearer simulated_token_abc")
      (fun _ => none) = MWResult.next mockUser
    ∧ verifyAdmin (some mockUser) = GateResult.next
    ∧ requireAdmin (some mockUser) = GateResult.next :=
  c10_dev_bypass "Bearer simulated_token_abc" (fun _ => none)
    (by decide) (by decide)

/-- C5: a second RSVP by a user already in the event's attendee list is
rejected with HTTP 400 and the stored event document is returned unchanged
(no write happens), not a silent no-op: the body is the `Validation`-style
error envelope. -/
theorem c5_duplicate_rsvp (e : Event) (u now : String)
    (h : u ∈ e.attendees) :
    rsvpToEvent (some e) u now =
      (errorResponse 400 "You have already RSVP'd to this event" Json.null now,
        some e) := by
  simp only [rsvpToEvent, if_pos h]

/-- Witness for C5: duplicate RSVP on a concrete one-attendee event. -/
theorem c5_duplicate_rsvp_witness :
    rsvpToEvent
      (some ⟨"T", "D", "2025-01-01", none, "L", some 2, none, true, ["u1"],
        "adm", "t0", "t0"⟩) "u1" "t1" =
    (errorResponse 400 "You have already RSVP'd to this event" Json.null "t1",
      some ⟨"T", "D", "2025-01-01", none, "L", some 2, none, true, ["u1"],
        "adm", "t0", "t0"⟩) :=
  c5_duplicate_rsvp _ "u1" "t1" (by decide)

/-- Counterexample to C2 as stated: the `verifyAdmin` gate (the variant the
routes mount) rejects a request whose authenticated context carries role
`super_admin` with 403 instead of calling the next handler, so "calls the
next handler iff the role is in {admin, super_admin}" is false on the code. -/
theorem c2_counterexample :
    (⟨"u1", none, some "super_admin"⟩ : AuthUser).role = some "super_admin"
    ∧ verifyAdmin (some ⟨"u1", none, some "super_admin"⟩) ≠ GateResult.next
    ∧ verifyAdmin (some ⟨"u1", none, some "super_admin"⟩)
        = GateResult.respond 403 adminRequiredBody := by
  refine ⟨rfl, ?_, rfl⟩
  simp [verifyAdmin]

/-- C2 amended: `requireAdmin` calls the next handler iff a context is
attached with role in {admin, super_admin}; `verifyAdmin` (the variant
mounted on the routes) calls the next handler iff the attached role is
exactly `admin`. Both respond 401 when the context is missing and 403 when
the role check fails, and in neither failure case do they continue. -/
theorem c2_admin_gates (ou : Option AuthUser) :
    (verifyAdmin ou = GateResult.next ↔
      ∃ u, ou = some u ∧ u.role = some "admin")
    ∧ (requireAdmin ou = GateResult.next ↔
      ∃ u, ou = some u ∧ (u.role = some "admin" ∨ u.role = some "super_admin"))
    ∧ (ou = none →
        verifyAdmin ou = GateResult.respond 401 authRequiredBody
        ∧ requireAdmin ou = GateResult.respond 401 authRequiredBody2)
    ∧ (∀ u, ou = some u → u.role ≠ some "admin" →
        verifyAdmin ou = GateResult.respond 403 adminRequiredBody)
    ∧ (∀ u, ou = some u → u.role ≠ some "admin" → u.role ≠ some "super_admin" →
        requireAdmin ou = GateResult.respond 403 adminRequiredBody2) := by
  cases ou with
  | none =>
    refine ⟨?_, ?_, fun _ => ⟨rfl, rfl⟩, ?_, ?_⟩ <;>
      simp [verifyAdmin, requireAdmin]
  | some u =>
    refine ⟨?_, ?_, by simp, ?_, ?_⟩
    · by_cases h : u.role = some "admin" <;> simp [verifyAdmin, h]
    · by_cases h : u.role = some "admin" ∨ u.role = some "super_admin" <;>
        simp [requireAdmin, h]
    · intro v hv hr
      cases hv
      simp [verifyAdmin, hr]
    · intro v hv hr hr2
      cases hv
      simp only [requireAdmin]
      rw [if_neg]
      rintro (h | h)
      · exact hr h
      · exact hr2 h

/-- Witness for C2's amended theorem: with no attached context both gates
respond 401. -/
theorem c2_admin_gates_witness :
    verifyAdmin none = GateResult.respond 401 authRequiredBody
    ∧ requireAdmin none = GateResult.respond 401 authRequiredBody2 :=
  (c2_admin_gates none).2.2.1 rfl

/-- Counterexample to C3 as stated: when the provider rejects the token of a
well-formed header, `verifyAuth` responds with HTTP 403, not 401. -/
theorem c3_counterexample :
    verifyAuth (some "production") (some "Bearer sometoken") (fun _ => none)
      = MWResult.respond 403 invalidTokenBody
    ∧ (403 : Nat) ≠ 401 := by
  refine ⟨?_, by decide⟩
  simp only [verifyAuth]
  rw [if_pos (by decide), if_neg (fun hc => by exact absurd hc.1 (by decide))]

/-- C3 amended: an absent or malformed `Authorization` header yields HTTP 401
before any handler logic runs (the middleware responds instead of calling the
handler), in both middleware variants; a provider-side verification failure
(expired, malformed, revoked — any failure) yields HTTP 403, not 401, with a
fixed normalized body that carries no provider-internal error shape. -/
theorem c3_auth_failures (env : Option String) (h : Option String)
    (verify : String → Option DecodedToken) :
    (h = none →
      verifyAuth env h verify = MWResult.respond 401 noTokenBody
      ∧ authenticateUser h verify = MWResult.respond 401 noTokenBody)
    ∧ (∀ s, h = some s → jsStartsWith s "Bearer " = false →
      verifyAuth env h verify = MWResult.respond 401 noTokenBody
      ∧ authenticateUser h verify = MWResult.respond 401 noTokenBody)
    ∧ (∀ s, h = some s → jsStartsWith s "Bearer " = true →
      ¬(env = some "development"
        ∧ jsStartsWith (extractToken s) "simulated_token_" = true) →
      verify (extractToken s) = none →
      verifyAuth env h verify = MWResult.respond 403 invalidTokenBody
      ∧ authenticateUser h verify = MWResult.respond 403 invalidOrExpiredBody) := by
  refine ⟨?_, ?_, ?_⟩
  · rintro rfl
    exact ⟨rfl, rfl⟩
  · rintro s rfl hs
    constructor <;> simp [verifyAuth, authenticateUser, hs]
  · rintro s rfl hs hdev hv
    constructor
    · simp only [verifyAuth, hs, if_true]
      rw [if_neg hdev, hv]
    · simp only [authenticateUser, hs, if_true]
      rw [hv]

/-- Witness for C3's amended theorem: a missing header gets 401 from both
variants. -/
theorem c3_auth_failures_witness :
    verifyAuth none none (fun _ => none) = MWResult.respond 401 noTokenBody
    ∧ authenticateUser none (fun _ => none)
        = MWResult.respond 401 noTokenBody :=
  (c3_auth_failures none none (fun _ => none)).1 rfl

/-- Counterexample to C7 as stated: the 401 body the `verifyAdmin` middleware
produces carries `success:false` and a message but no `timestamp` key at all,
so "middleware-produced 401/403 responses carry an ISO-8601 timestamp" is
false on the code. -/
theorem c7_counterexample :
    verifyAdmin none = GateResult.respond 401 authRequiredBody
    ∧ authRequiredBody.lookup "success" = some (Json.bool false)
    ∧ (∃ m, authRequiredBody.lookup "message" = some (Json.str m))
    ∧ authRequiredBody.lookup "timestamp" = none :=
  ⟨rfl, rfl, ⟨"Access denied. Authentication required.", rfl⟩, rfl⟩

/-- C7 amended: controller responses built by `successResponse` /
`errorResponse` carry the full envelope (`success`, `message`, `data` /
`error`, ISO-8601 `timestamp`); the middleware-produced 401/403 bodies carry
`success:false` and a `message` string but no `timestamp` (and no `data`)
key. -/
theorem c7_envelope (st : Nat) (msg : String) (d err : Json) (now : String) :
    ((successResponse st msg d now).status = st
     ∧ (successResponse st msg d now).body.lookup "success"
        = some (Json.bool true)
     ∧ (successResponse st msg d now).body.lookup "message"
        = some (Json.str msg)
     ∧ (successResponse st msg d now).body.lookup "data" = some d
     ∧ (successResponse st msg d now).body.lookup "timestamp"
        = some (Json.str now))
    ∧ ((errorResponse st msg err now).status = st
     ∧ (errorResponse st msg err now).body.lookup "success"
        = some (Json.bool false)
     ∧ (errorResponse st msg err now).body.lookup "message"
        = some (Json.str msg)
     ∧ (errorResponse st msg err now).body.lookup "error" = some err
     ∧ (errorResponse st msg err now).body.lookup "timestamp"
        = some (Json.str now))
    ∧ (noTokenBody.lookup "success" = some (Json.bool false)
     ∧ noTokenBody.lookup "timestamp" = none
     ∧ invalidTokenBody.lookup "success" = some (Json.bool false)
     ∧ invalidTokenBody.lookup "timestamp" = none
     ∧ authRequiredBody2.lookup "success" = some (Json.bool false)
     ∧ authRequiredBody2.lookup "timestamp" = none
     ∧ adminRequiredBody.lookup "success" = some (Json.bool false)
     ∧ adminRequiredBody.lookup "timestamp" = none
     ∧ adminRequiredBody2.lookup "success" = some (Json.bool false)
     ∧ adminRequiredBody2.lookup "timestamp" = none
     ∧ invalidOrExpiredBody.lookup "success" = some (Json.bool false)
     ∧ invalidOrExpiredBody.lookup "timestamp" = none) := by
  refine ⟨⟨rfl, ?_, ?_, ?_, ?_⟩, ⟨rfl, ?_, ?_, ?_, ?_⟩, ?_⟩ <;>
    simp [successResponse, errorResponse, Json.lookup, noTokenBody,
      invalidTokenBody, authRequiredBody2, adminRequiredBody,
      adminRequiredBody2, invalidOrExpiredBody]

/-- C1: the code contradicts the claim — on a request whose bearer token
verifies with an embedded role claim `admin`, both middleware variants attach
that claim as the request role without ever reading the `users` collection
(neither takes the database as an input), while the spec's role-resolution
algorithm over a `users` collection whose record for the same identity holds
role `resident` returns `resident`. -/
theorem c1_token_role_divergence :
    verifyAuth none (some "Bearer tokenA")
      (fun _ => some ⟨"u1", some "u1@example.com", some "admin"⟩)
      = MWResult.next ⟨"u1", some "u1@example.com", some "admin"⟩
    ∧ authenticateUser (some "Bearer tokenA")
      (fun _ => some ⟨"u1", some "u1@example.com", some "admin"⟩)
      = MWResult.next ⟨"u1", some "u1@example.com", some "admin"⟩
    ∧ resolveRoleSpec
        (fun _ => some ⟨"u1@example.com", "User One", "", "", "",
          "resident", "t0", "t0"⟩) "u1" = "resident"
    ∧ ("admin" : String) ≠ "resident" := by
  exact ⟨rfl, rfl, rfl, by decide⟩

/-- Counterexample to C9 as stated: on a signed-in session change the bridge
exposes, before the `/auth/me` merge completes, a current user that already
carries the defaulted role `resident`. -/
theorem c9_counterexample :
    (fetchBackendUserData ⟨"u1", some "a@b.c", some "Alice", none, none⟩ true
        (some ⟨some "admin", none, none⟩)).head?
      = some (some (initialClientUser
          ⟨"u1", some "a@b.c", some "Alice", none, none⟩))
    ∧ (initialClientUser ⟨"u1", some "a@b.c", some "Alice", none, none⟩).role
        = "resident" :=
  ⟨rfl, rfl⟩

/-- C9 amended: after a successful token fetch the bridge first exposes a
provisional user whose role is the hard-coded default `resident`; any exposed
user whose role is not `resident` (in particular `admin`) can only be the
post-merge user, and its role is exactly the role the backend record
reported — the bridge never defaults to `admin`. -/
theorem c9_loading_role (u : FbUser) (me : Option MeData) :
    (fetchBackendUserData u true me).head? = some (some (initialClientUser u))
    ∧ (initialClientUser u).role = "resident"
    ∧ (∀ cu : ClientUser, some cu ∈ fetchBackendUserData u true me →
        cu.role ≠ "resident" → ∃ m, me = some m ∧ m.role = some cu.role) := by
  refine ⟨?_, rfl, ?_⟩
  · cases me <;> rfl
  · intro cu hmem hrole
    cases me with
    | none =>
      simp only [fetchBackendUserData, if_true] at hmem
      simp at hmem
      cases hmem
      exact absurd rfl hrole
    | some m =>
      simp only [fetchBackendUserData, if_true] at hmem
      simp at hmem
      rcases hmem with hmem | hmem
      · cases hmem
        exact absurd rfl hrole
      · cases hmem
        refine ⟨m, rfl, ?_⟩
        cases hm : m.role with
        | none =>
          exfalso
          apply hrole
          simp [mergeClientUser, hm]
        | some r =>
          simp [mergeClientUser, hm]

/-- Witness for C9's amended theorem: with a backend record reporting role
`admin`, the merged user's `admin` role is traced back to the record. -/
theorem c9_loading_role_witness :
    ∃ m : MeData,
      (some (⟨some "admin", none, none⟩ : MeData) = some m)
      ∧ m.role = some (mergeClientUser
          (initialClientUser ⟨"u1", some "a@b.c", some "Alice", none, none⟩)
          ⟨some "admin", none, none⟩).role :=
  (c9_loading_role ⟨"u1", some "a@b.c", some "Alice", none, none⟩
      (some ⟨some "admin", none, none⟩)).2.2
    (mergeClientUser
      (initialClientUser ⟨"u1", some "a@b.c", some "Alice", none, none⟩)
      ⟨some "admin", none, none⟩)
    (List.mem_cons_of_mem _ (List.mem_cons_self _ _))
    (by decide)

/-- The resident-update merge never touches the stored `role`. -/
theorem applyResidentUpdate_role (ad : Bool) (body : ResidentUpdateBody)
    (r : UserRecord) (now : String) :
    (applyResidentUpdate ad body r now).role = r.role := by
  simp only [applyResidentUpdate]
  split_ifs <;> rfl

/-- The resident-update merge never touches the stored `email`. -/
theorem applyResidentUpdate_email (ad : Bool) (body : ResidentUpdateBody)
    (r : UserRecord) (now : String) :
    (applyResidentUpdate ad body r now).email = r.email := by
  simp only [applyResidentUpdate]
  split_ifs <;> rfl

/-- The resident-update merge never touches the stored `createdAt`. -/
theorem applyResidentUpdate_createdAt (ad : Bool) (body : ResidentUpdateBody)
    (r : UserRecord) (now : String) :
    (applyResidentUpdate ad body r now).createdAt = r.createdAt := by
  simp only [applyResidentUpdate]
  split_ifs <;> rfl

/-- The resident-update merge always sets `updatedAt` to the request time. -/
theorem applyResidentUpdate_updatedAt (ad : Bool) (body : ResidentUpdateBody)
    (r : UserRecord) (now : String) :
    (applyResidentUpdate ad body r now).updatedAt = now := by
  simp only [applyResidentUpdate]
  split_ifs <;> rfl

/-- Without admin rights the merge leaves `flatNumber` and `blockNumber`
unchanged. -/
theorem applyResidentUpdate_nonadmin_frame (body : ResidentUpdateBody)
    (r : UserRecord) (now : String) :
    (applyResidentUpdate false body r now).flatNumber = r.flatNumber
    ∧ (applyResidentUpdate false body r now).blockNumber = r.blockNumber := by
  simp only [applyResidentUpdate]
  constructor <;> (split_ifs <;> first | rfl | simp_all)

/-- C6: a requester who is neither admin nor the target resident gets 403 and
the stored record passes through unchanged; a self-update succeeds and may
change only `displayName`, `phoneNumber` (plus `flatNumber`/`blockNumber`
when the requester is admin) and `updatedAt` — `role`, `email` and
`createdAt` are preserved; and a `role` field supplied in the request body
has no effect on the outcome at all. -/
theorem c6_update_resident (requester : AuthUser) (rid : String)
    (body : ResidentUpdateBody) (rec : Option UserRecord) (now : String) :
    (requester.role ≠ some "admin" → requester.uid ≠ rid →
      updateResident requester rid body rec now =
        (errorResponse 403 "Not authorized to update this resident profile"
          Json.null now, rec))
    ∧ (∀ r : UserRecord, rec = some r → requester.uid = rid →
        ∃ r2 : UserRecord,
          updateResident requester rid body rec now =
            (successResponse 200 "Resident updated successfully" Json.null now,
              some r2)
          ∧ r2.role = r.role
          ∧ r2.email = r.email
          ∧ r2.createdAt = r.createdAt
          ∧ r2.updatedAt = now
          ∧ (requester.role ≠ some "admin" →
              r2.flatNumber = r.flatNumber ∧ r2.blockNumber = r.blockNumber))
    ∧ (∀ ρ : Option String,
        updateResident requester rid { body with role := ρ } rec now =
          updateResident requester rid body rec now) := by
  refine ⟨?_, ?_, fun ρ => rfl⟩
  · intro h1 h2
    simp only [updateResident]
    rw [if_pos ⟨h1, h2⟩]
  · rintro r rfl hr
    simp only [updateResident]
    rw [if_neg (fun hc => hc.2 hr)]
    refine ⟨applyResidentUpdate (decide (requester.role = some "admin")) body r now,
      rfl, applyResidentUpdate_role _ _ _ _, applyResidentUpdate_email _ _ _ _,
      applyResidentUpdate_createdAt _ _ _ _,
      applyResidentUpdate_updatedAt _ _ _ _, ?_⟩
    intro hna
    have hd : decide (requester.role = some "admin") = false :=
      decide_eq_false hna
    rw [hd]
    exact applyResidentUpdate_nonadmin_frame body r now

/-- Witness for C6: a non-admin resident updating another identity's profile
is rejected with 403 and the stored record is untouched. -/
theorem c6_update_resident_witness :
    updateResident ⟨"u1", none, some "resident"⟩ "u2"
      ⟨some "Evil", none, none, none, some "admin"⟩
      (some ⟨"u2@x.com", "U Two", "", "A1", "B", "resident", "t0", "t0"⟩)
      "t1"
    = (errorResponse 403 "Not authorized to update this resident profile"
        Json.null "t1",
      some ⟨"u2@x.com", "U Two", "", "A1", "B", "resident", "t0", "t0"⟩) :=
  (c6_update_resident ⟨"u1", none, some "resident"⟩ "u2"
    ⟨some "Evil", none, none, none, some "admin"⟩
    (some ⟨"u2@x.com", "U Two", "", "A1", "B", "resident", "t0", "t0"⟩)
    "t1").1 (by decide) (by decide)

/-- RSVP on a full event (capacity guard true, user not yet attending) is
rejected with 400 and the document is unchanged. -/
theorem rsvpToEvent_full (e : Event) (u now : String)
    (hu : u ∉ e.attendees)
    (hcap : atCapacity e.maxAttendees e.attendees = true) :
    rsvpToEvent (some e) u now =
      (errorResponse 400 "Event has reached maximum attendees" Json.null now,
        some e) := by
  simp only [rsvpToEvent, if_neg hu, hcap, if_pos]

/-- RSVP below capacity by a new user appends the user id and stamps
`updatedAt`. -/
theorem rsvpToEvent_adds (e : Event) (u now : String)
    (hu : u ∉ e.attendees)
    (hcap : atCapacity e.maxAttendees e.attendees = false) :
    rsvpToEvent (some e) u now =
      (successResponse 200 "RSVP successful" Json.null now,
        some { e with attendees := e.attendees ++ [u], updatedAt := now }) := by
  simp only [rsvpToEvent, if_neg hu, hcap]
  rfl

/-- Cancelling an existing RSVP filters the user id out and stamps
`updatedAt`. -/
theorem cancelRsvp_removes (e : Event) (u now : String)
    (hu : u ∈ e.attendees) :
    cancelRsvp (some e) u now =
      (successResponse 200 "RSVP canceled successfully" Json.null now,
        some { e with
          attendees := e.attendees.filter (fun id => id ≠ u)
          updatedAt := now }) := by
  simp only [cancelRsvp, if_pos hu]

/-- C4: on an event with `maxAttendees = N ≥ 1` and exactly N (distinct)
attendees, an RSVP by a new user is rejected with 400 and the document is
unchanged; after one attendee cancels, the attendee list has N−1 entries,
one more distinct RSVP succeeds and restores size N, and the next distinct
RSVP after that is rejected with 400 again, leaving the document unchanged. -/
theorem c4_capacity_boundary (e : Event) (N : Int)
    (u1 a u2 n1 n2 n3 n4 : String)
    (hmax : e.maxAttendees = some N) (hN : 1 ≤ N)
    (hlen : (e.attendees.length : Int) = N)
    (hnodup : e.attendees.Nodup)
    (hu1 : u1 ∉ e.attendees) (ha : a ∈ e.attendees)
    (hu2 : u2 ∉ e.attendees) (hne : u2 ≠ u1) :
    rsvpToEvent (some e) u1 n1 =
      (errorResponse 400 "Event has reached maximum attendees" Json.null n1,
        some e)
    ∧ ∃ e1 : Event, cancelRsvp (some e) a n2 =
        (successResponse 200 "RSVP canceled successfully" Json.null n2, some e1)
      ∧ (e1.attendees.length : Int) = N - 1
      ∧ ∃ e2 : Event, rsvpToEvent (some e1) u1 n3 =
          (successResponse 200 "RSVP successful" Json.null n3, some e2)
        ∧ (e2.attendees.length : Int) = N
        ∧ rsvpToEvent (some e2) u2 n4 =
            (errorResponse 400 "Event has reached maximum attendees"
              Json.null n4, some e2) := by
  have hfilter : e.attendees.filter (fun id => id ≠ a) = e.attendees.erase a := by
    have := List.Nodup.erase_eq_filter hnodup a
    simpa using this.symm
  have hlenN : e.attendees.length = N.toNat := by omega
  have hlen1 : (e.attendees.filter (fun id => id ≠ a)).length
      = e.attendees.length - 1 := by
    rw [hfilter]
    have := List.length_erase_add_one ha
    omega
  have hcap : atCapacity e.maxAttendees e.attendees = true := by
    simp only [atCapacity, hmax, decide_eq_true_eq]
    omega
  refine ⟨rsvpToEvent_full e u1 n1 hu1 hcap, ?_⟩
  refine ⟨_, cancelRsvp_removes e a n2 ha, ?_, ?_⟩
  · simp only [hlen1]
    have hge : 1 ≤ e.attendees.length := by omega
    omega
  have hu1f : u1 ∉ e.attendees.filter (fun id => id ≠ a) :=
    fun hmem => hu1 (List.mem_of_mem_filter hmem)
  have hcap1 : atCapacity e.maxAttendees
      (e.attendees.filter (fun id => id ≠ a)) = false := by
    simp only [atCapacity, hmax, decide_eq_false_iff_not]
    intro hc
    have := hc.2
    omega
  refine ⟨_, rsvpToEvent_adds _ u1 n3 hu1f hcap1, ?_, ?_⟩
  · simp only [List.length_append, List.length_cons, List.length_nil, hlen1]
    omega
  · have hu2f : u2 ∉ e.attendees.filter (fun id => id ≠ a) ++ [u1] := by
      intro hmem
      rcases List.mem_append.mp hmem with hmem | hmem
      · exact hu2 (List.mem_of_mem_filter hmem)
      · exact hne (List.mem_singleton.mp hmem)
    have hcap2 : atCapacity e.maxAttendees
        (e.attendees.filter (fun id => id ≠ a) ++ [u1]) = true := by
      simp only [atCapacity, hmax, decide_eq_true_eq, List.length_append,
        List.length_cons, List.length_nil, hlen1]
      omega
    exact rsvpToEvent_full _ u2 n4 hu2f hcap2

/-- Witness for C4: a two-slot event with two attendees rejects a third
distinct RSVP with 400 and stays unchanged. -/
theorem c4_capacity_boundary_witness :
    rsvpToEvent
      (some ⟨"BBQ", "d", "2025-01-01", none, "Park", some 2, none, true,
        ["a", "b"], "adm", "t0", "t0"⟩) "u1" "n1" =
    (errorResponse 400 "Event has reached maximum attendees" Json.null "n1",
      some ⟨"BBQ", "d", "2025-01-01", none, "Park", some 2, none, true,
        ["a", "b"], "adm", "t0", "t0"⟩) :=
  (c4_capacity_boundary
    ⟨"BBQ", "d", "2025-01-01", none, "Park", some 2, none, true,
      ["a", "b"], "adm", "t0", "t0"⟩ 2 "u1" "a" "u2" "n1" "n2" "n3" "n4"
    rfl (by decide) (by decide) (by decide) (by decide) (by decide)
    (by decide) (by decide)).1

end CommunityHub
